import Mathlib

/-!
Shallow embedding of the color conversion library (src/color.c, src/color.h).

The C `struct color` is a tagged union: a `type` tag, an `extra` flags byte,
and a payload of three numeric fields.  Doubles are modelled as exact
rationals (`ℚ`); the transcendental libm calls (`pow`, `sqrt`, `atan2`,
`sin`, `cos`) are abstracted as an explicit parameter record `prims`, so
that every definition stays computable and structural facts hold for any
interpretation of those primitives.  `uint8_t` payload bytes (RGB8, YCbCr)
are stored as rationals holding integer values.  C `assert`s that guard the
routing engine (type tags, flag preconditions of the self-edges, proxy
validity) are modelled as `Option` failures, so "no error is signaled"
becomes "the result is `some _`".
-/

namespace Colors

/-- The C `enum color_type`: the valid non-sentinel spaces (COLOR_NONE and
COLOR_DUMMY_END are not representable states). -/
inductive color_type where
  | RGB8 | RGB | LINEAR_RGB | HSL | HSV | YUV | YCBCR | YDBDR | YIQ
  | XYZ | XYY | LAB | LUV | LCHAB | LCHUV | LSHUV
  deriving DecidableEq, Repr

/-- The 16 valid spaces, for exhaustive enumeration. -/
def color_type.all : List color_type :=
  [.RGB8, .RGB, .LINEAR_RGB, .HSL, .HSV, .YUV, .YCBCR, .YDBDR, .YIQ,
   .XYZ, .XYY, .LAB, .LUV, .LCHAB, .LCHUV, .LSHUV]

instance : Fintype color_type :=
  ⟨⟨color_type.all, by decide⟩, fun x => by cases x <;> decide⟩

/-- The C `struct color`: tag, flags byte, and the three payload fields of the
active union member, in declaration order (e.g. RGB: R,G,B; HSL: H,S,L;
YUV: Y,U,V; YCbCr: Y,Cb,Cr; XYZ: X,Y,Z; xyY: x,y,Y; Lab: L,a,b;
Luv: L,u,v; LCHab/LCHuv: L,C,h; LSHuv: L,S,h). -/
structure color where
  type : color_type
  extra : Nat
  v0 : ℚ
  v1 : ℚ
  v2 : ℚ
  deriving DecidableEq, Repr

/-- Abstract interpretations of the libm primitives used by the C code.
`pw x y` stands for `pow(x, y)`. -/
structure prims where
  pw : ℚ → ℚ → ℚ
  sqrt : ℚ → ℚ
  atan2 : ℚ → ℚ → ℚ
  sin : ℚ → ℚ
  cos : ℚ → ℚ

/-- Constants from `enum color_extra`. -/
def COLOR_YUV_MAT_MASK : Nat := 3
def COLOR_YCBCR_FULL_RANGE : Nat := 4

def COLOR_REF_X : ℚ := 31271/32902
def COLOR_REF_Xr : ℚ := 32902/31271
def COLOR_REF_Z : ℚ := 35827/32902
def COLOR_REF_Zr : ℚ := 32902/35827
def COLOR_REF_U13 : ℚ := 813046/316141
def COLOR_REF_V13 : ℚ := 1924767/316141

/-- One row of the `rgb_to_yuv[][8]` matrix table (7 used entries). -/
structure yuv_mat where
  (m0 m1 m2 m3 m4 m5 m6 : ℚ)

/-- Table `rgb_to_yuv`, indexed by `extra & COLOR_YUV_MAT_MASK` (so the index is
always `< 4`; the wildcard arm is the FCC row, index 3). -/
def rgb_to_yuv : Nat → yuv_mat
  | 0 => ⟨0.299, 0.587, 0.114, -32591/221500, -63983/221500, -72201/140200, -7011/70100⟩
  | 1 => ⟨0.2126, 0.7152, 0.0722, -115867/1159750, -194892/579875, -54981/98425, -44403/787400⟩
  | 2 => ⟨0.212, 0.701, 0.087, -11554/114125, -76409/228250, -86223/157600, -10701/157600⟩
  | _ => ⟨0.3, 0.59, 0.11, -327/2225, -6431/22250, -7257/14000, -1353/14000⟩

/-- One row of the `yuv_to_rgb[][4]` matrix table. -/
structure yuv_mat_inv where
  (m0 m1 m2 m3 : ℚ)

/-- Table `yuv_to_rgb`, indexed by `extra & COLOR_YUV_MAT_MASK`. -/
def yuv_to_rgb : Nat → yuv_mat_inv
  | 0 => ⟨701/615, -25251/63983, -209599/361005, 443/218⟩
  | 1 => ⟨3937/3075, -1674679/7795680, -4185031/10996200, 4639/2180⟩
  | 2 => ⟨788/615, -79431/305636, -167056/431115, 913/436⟩
  | _ => ⟨140/123, -4895/12862, -1400/2419, 445/218⟩

/-- C cast of a double to a signed integer: truncation toward zero. -/
def c_trunc (x : ℚ) : ℤ := if 0 ≤ x then ⌊x⌋ else -⌊-x⌋

/-- C cast `(uint8_t)(int)x` (the int fits in range in all uses). -/
def to_u8 (x : ℚ) : ℚ := ((c_trunc x).emod 256 : ℤ)

/-- The `x < 0 ? 0 : x > 255 ? 255 : (uint8_t)x` pattern used when storing
8-bit payload bytes. -/
def clamp_u8 (x : ℚ) : ℚ := if x < 0 then 0 else if x > 255 then 255 else (c_trunc x : ℤ)

/-- Helper `rgb8_to_linear`. -/
def rgb8_to_linear (P : prims) (c : ℚ) : ℚ :=
  if c ≥ 11 then P.pw (c * (40/10761) + 11/211) 2.4 else c * (5/16473)

/-- Helper `rgb_to_linear`. -/
def rgb_to_linear (P : prims) (c : ℚ) : ℚ :=
  if c > 0.0031308 * 12.92 then P.pw (c * (1/1.055) + 0.055/1.055) 2.4 else c * (1/12.92)

/-- Helper `linear_to_rgb8`. -/
def linear_to_rgb8 (P : prims) (c : ℚ) : ℚ :=
  if c ≤ 0 then 0
  else if c ≤ 0.0031308 then to_u8 (c * 3294.6 + 0.5)
  else if c < 1 then to_u8 (P.pw c (1/2.4) * 269.025 - (14.025 - 0.5))
  else 255

/-- Helper `linear_to_rgb`. -/
def linear_to_rgb (P : prims) (c : ℚ) : ℚ :=
  if c > 0.0031308 then P.pw c (1/2.4) * 1.055 - 0.055 else c * 12.92

/-- Helper `xyz_to_lab`. -/
def xyz_to_lab (P : prims) (c : ℚ) : ℚ :=
  if c > 216/24389 then P.pw c (1/3) else c * (841/108) + 4/29

/-! ## Edge conversion functions

Each mirrors one `static void color_X_to_Y(struct color *c, uint8_t extra)`.
The entry `assert(c->type == COLOR_X)` is modelled as an `Option` guard. -/

def color_RGB8_to_RGB (_P : prims) (c : color) (_e : Nat) : Option color :=
  if c.type = .RGB8 then
    some { type := .RGB, extra := c.extra,
           v0 := c.v0 * (1/255), v1 := c.v1 * (1/255), v2 := c.v2 * (1/255) }
  else none

def color_RGB8_to_LinearRGB (P : prims) (c : color) (_e : Nat) : Option color :=
  if c.type = .RGB8 then
    some { type := .LINEAR_RGB, extra := c.extra,
           v0 := rgb8_to_linear P c.v0, v1 := rgb8_to_linear P c.v1, v2 := rgb8_to_linear P c.v2 }
  else none

def color_RGB_to_RGB8 (_P : prims) (c : color) (_e : Nat) : Option color :=
  if c.type = .RGB then
    some { type := .RGB8, extra := c.extra,
           v0 := clamp_u8 (c.v0 * 255 + 0.5), v1 := clamp_u8 (c.v1 * 255 + 0.5),
           v2 := clamp_u8 (c.v2 * 255 + 0.5) }
  else none

def color_RGB_to_LinearRGB (P : prims) (c : color) (_e : Nat) : Option color :=
  if c.type = .RGB then
    some { type := .LINEAR_RGB, extra := c.extra,
           v0 := rgb_to_linear P c.v0, v1 := rgb_to_linear P c.v1, v2 := rgb_to_linear P c.v2 }
  else none

def color_RGB_to_HSL (_P : prims) (c : color) (_e : Nat) : Option color :=
  if c.type = .RGB then
    let R := c.v0; let G := c.v1; let B := c.v2
    let mn0 := if R < G then R else G
    let mn := if B < mn0 then B else mn0
    let mx0 := if R > G then R else G
    let mx := if B > mx0 then B else mx0
    let delta := mx - mn
    let L := (mx + mn) * 0.5
    some { type := .HSL, extra := c.extra,
           v0 := if |delta| > 0 then
                   (if mx = R then (G - B) / delta
                    else if mx = G then (B - R) / delta + 2
                    else (R - G) / delta + 4)
                 else 0,
           v1 := if |delta| > 0 then
                   (if L < 0.5 then delta / (mx + mn) else delta / (2 - mx - mn))
                 else 0,
           v2 := L }
  else none

def color_RGB_to_HSV (_P : prims) (c : color) (_e : Nat) : Option color :=
  if c.type = .RGB then
    let R := c.v0; let G := c.v1; let B := c.v2
    let mn0 := if R < G then R else G
    let mn := if B < mn0 then B else mn0
    let mx0 := if R > G then R else G
    let mx := if B > mx0 then B else mx0
    let delta := mx - mn
    some { type := .HSV, extra := c.extra,
           v0 := if |delta| > 0 then
                   (if mx = R then (G - B) / delta
                    else if mx = G then (B - R) / delta + 2
                    else (R - G) / delta + 4)
                 else 0,
           v1 := if |delta| > 0 then delta / mx else 0,
           v2 := mx }
  else none

def color_RGB_to_YUV (_P : prims) (c : color) (e : Nat) : Option color :=
  if c.type = .RGB then
    let m := rgb_to_yuv (e &&& COLOR_YUV_MAT_MASK)
    some { type := .YUV, extra := e,
           v0 := c.v0 * m.m0 + c.v1 * m.m1 + c.v2 * m.m2,
           v1 := c.v0 * m.m3 + c.v1 * m.m4 + c.v2 * 0.436,
           v2 := c.v0 * 0.615 + c.v1 * m.m5 + c.v2 * m.m6 }
  else none

def color_RGB_to_YDbDr (_P : prims) (c : color) (_e : Nat) : Option color :=
  if c.type = .RGB then
    some { type := .YDBDR, extra := c.extra,
           v0 := c.v0 * (299/1000) + c.v1 * (587/1000) + c.v2 * (57/500),
           v1 := c.v0 * (-398567/886000) + c.v1 * (-782471/886000) + c.v2 * (1333/1000),
           v2 := c.v0 * (1333/1000) + c.v1 * (-782471/701000) + c.v2 * (-75981/350500) }
  else none

def color_RGB_to_YIQ (_P : prims) (c : color) (_e : Nat) : Option color :=
  if c.type = .RGB then
    some { type := .YIQ, extra := c.extra,
           v0 := c.v0 * 0.299 + c.v1 * 0.587 + c.v2 * 0.114,
           v1 := c.v0 * 0.5957 + c.v1 * (-0.2744766323826577035751015648)
                 + c.v2 * (-0.3212233676173422964248984352),
           v2 := c.v0 * (-0.2114956266791979792324116478) + c.v1 * 0.5226
                 + c.v2 * (-0.3111043733208020207675883522) }
  else none

def color_LinearRGB_to_RGB8 (P : prims) (c : color) (_e : Nat) : Option color :=
  if c.type = .LINEAR_RGB then
    some { type := .RGB8, extra := c.extra,
           v0 := linear_to_rgb8 P c.v0, v1 := linear_to_rgb8 P c.v1, v2 := linear_to_rgb8 P c.v2 }
  else none

def color_LinearRGB_to_RGB (P : prims) (c : color) (_e : Nat) : Option color :=
  if c.type = .LINEAR_RGB then
    some { type := .RGB, extra := c.extra,
           v0 := linear_to_rgb P c.v0, v1 := linear_to_rgb P c.v1, v2 := linear_to_rgb P c.v2 }
  else none

def color_LinearRGB_to_XYZ (_P : prims) (c : color) (_e : Nat) : Option color :=
  if c.type = .LINEAR_RGB then
    some { type := .XYZ, extra := c.extra,
           v0 := c.v0 * (5067776/12288897) + c.v1 * (4394405/12288897) + c.v2 * (4435075/24577794),
           v1 := c.v0 * (871024/4096299) + c.v1 * (8788810/12288897) + c.v2 * (887015/12288897),
           v2 := c.v0 * (79184/4096299) + c.v1 * (4394405/36866691) + c.v2 * (70074185/73733382) }
  else none

def color_LinearRGB_to_Lab (P : prims) (c : color) (_e : Nat) : Option color :=
  if c.type = .LINEAR_RGB then
    let R := c.v0; let G := c.v1; let B := c.v2
    let X := xyz_to_lab P (R * (10135552/23359437) + G * (8788810/23359437) + B * (4435075/23359437))
    let Y := xyz_to_lab P (R * (871024/4096299) + G * (8788810/12288897) + B * (887015/12288897))
    let Z := xyz_to_lab P (R * (158368/8920923) + G * (8788810/80288307) + B * (70074185/80288307))
    some { type := .LAB, extra := c.extra,
           v0 := Y * 116 - 16, v1 := (X - Y) * 500, v2 := (Y - Z) * 200 }
  else none

/-- The static `rgb_tbl` of `finish_HSL_to_RGB`. -/
def rgb_tbl : List (Nat × Nat × Nat) :=
  [(0, 2, 1), (2, 0, 1), (1, 0, 2), (1, 2, 0), (2, 1, 0), (0, 1, 2)]

/-- Helper `finish_HSL_to_RGB`: shared hue-sector finisher for HSL→RGB and HSV→RGB
(returns the R,G,B triple; the in-range index assert is a debug check that
holds for all exact inputs, the lookup is modelled with a total `getD`). -/
def finish_HSL_to_RGB (h chroma m : ℚ) : ℚ × ℚ × ℚ :=
  let absh := |h|
  let h2a := if absh ≥ 2 then ⌊h * 0.5⌋ * (-2) + h - 1
             else if h < 0 then h + 1 else h - 1
  let h2 := 1 - |h2a|
  let idx := c_trunc (if absh ≥ 6 then (⌊h * (1/6)⌋ : ℚ) * (-6) + h
                      else if h < 0 then h + 6 else h)
  let vars : List ℚ := [chroma + m, m, chroma * h2 + m]
  let sel := rgb_tbl.getD idx.toNat (0, 0, 0)
  (vars.getD sel.1 0, vars.getD sel.2.1 0, vars.getD sel.2.2 0)

def color_HSL_to_RGB (_P : prims) (c : color) (_e : Nat) : Option color :=
  if c.type = .HSL then
    let H := c.v0; let S := c.v1; let L := c.v2
    if |S| > 0 then
      let chroma := (1 - |L * 2 - 1|) * S
      let m := chroma * (-0.5) + L
      let rgb := finish_HSL_to_RGB H chroma m
      some { type := .RGB, extra := c.extra, v0 := rgb.1, v1 := rgb.2.1, v2 := rgb.2.2 }
    else
      some { type := .RGB, extra := c.extra, v0 := L, v1 := L, v2 := L }
  else none

def color_HSV_to_RGB (_P : prims) (c : color) (_e : Nat) : Option color :=
  if c.type = .HSV then
    let H := c.v0; let S := c.v1; let V := c.v2
    if |S| > 0 then
      let chroma := V * S
      let m := V - chroma
      let rgb := finish_HSL_to_RGB H chroma m
      some { type := .RGB, extra := c.extra, v0 := rgb.1, v1 := rgb.2.1, v2 := rgb.2.2 }
    else
      some { type := .RGB, extra := c.extra, v0 := V, v1 := V, v2 := V }
  else none

def color_YUV_to_RGB (_P : prims) (c : color) (_e : Nat) : Option color :=
  if c.type = .YUV then
    let m := yuv_to_rgb (c.extra &&& COLOR_YUV_MAT_MASK)
    some { type := .RGB, extra := 0,
           v0 := c.v0 + c.v2 * m.m0,
           v1 := c.v0 + c.v1 * m.m1 + c.v2 * m.m2,
           v2 := c.v0 + c.v1 * m.m3 }
  else none

/-- Edge `color_YUV_to_YUV`: the matrix re-parameterization self-edge, literally
YUV→RGB (under the value's current matrix) then RGB→YUV (under the target
matrix); the `assert(c->extra != extra)` precondition and the
`assert(c->extra == extra)` postcondition are modelled as failures. -/
def color_YUV_to_YUV (P : prims) (c : color) (e : Nat) : Option color :=
  if c.type = .YUV ∧ c.extra ≠ e then
    (color_YUV_to_RGB P c e).bind fun c1 =>
      (color_RGB_to_YUV P c1 e).bind fun c2 =>
        if c2.extra = e then some c2 else none
  else none

def color_YUV_to_YCbCr (P : prims) (c : color) (e : Nat) : Option color :=
  if c.type = .YUV then
    (if c.extra &&& COLOR_YUV_MAT_MASK ≠ e &&& COLOR_YUV_MAT_MASK
     then color_YUV_to_YUV P c e else some c).bind fun c1 =>
      let q := if e &&& COLOR_YCBCR_FULL_RANGE ≠ 0 then
                 (c1.v0 * 255 + 0.5, c1.v1 * (31875/109) + 128, c1.v2 * (8500/41) + 128)
               else
                 (c1.v0 * 219 + 16.5, c1.v1 * (28000/109) + 144, c1.v2 * (22400/123) + 144)
      some { type := .YCBCR, extra := e,
             v0 := clamp_u8 q.1, v1 := clamp_u8 q.2.1, v2 := clamp_u8 q.2.2 }
  else none

def color_YCbCr_to_YUV (P : prims) (c : color) (e : Nat) : Option color :=
  if c.type = .YCBCR then
    let q := if c.extra &&& COLOR_YCBCR_FULL_RANGE ≠ 0 then
               (c.v0 * (1/255), c.v1 * (109/31875) - 0.436, c.v2 * (41/8500) - 0.615)
             else
               (c.v0 * (1/219) - 16/219, c.v1 * (109/28000) - 0.558625,
                c.v2 * (123/22400) - 0.78796875)
    -- `c->extra &= ~(uint8_t)COLOR_YCBCR_FULL_RANGE`: 251 = 0xFB
    let c1 : color := { type := .YUV, extra := c.extra &&& 251,
                        v0 := q.1, v1 := q.2.1, v2 := q.2.2 }
    if c1.extra &&& COLOR_YUV_MAT_MASK ≠ e &&& COLOR_YUV_MAT_MASK
    then color_YUV_to_YUV P c1 e else some c1
  else none

/-- Edge `color_YCbCr_to_YCbCr`: the range/matrix re-parameterization self-edge,
YCbCr→YUV then YUV→YCbCr, with the flags-changed assertion as a failure. -/
def color_YCbCr_to_YCbCr (P : prims) (c : color) (e : Nat) : Option color :=
  if c.type = .YCBCR ∧ c.extra ≠ e then
    (color_YCbCr_to_YUV P c e).bind fun c1 =>
      (color_YUV_to_YCbCr P c1 e).bind fun c2 =>
        if c2.extra = e then some c2 else none
  else none

def color_YDbDr_to_RGB (_P : prims) (c : color) (_e : Nat) : Option color :=
  if c.type = .YDBDR then
    some { type := .RGB, extra := c.extra,
           v0 := c.v0 + c.v2 * (701/1333),
           v1 := c.v0 + c.v1 * (-101004/782471) + c.v2 * (-209599/782471),
           v2 := c.v0 + c.v1 * (886/1333) }
  else none

def color_YDbDr_to_YIQ (_P : prims) (c : color) (_e : Nat) : Option color :=
  if c.type = .YDBDR then
    some { type := .YIQ, extra := c.extra,
           v0 := c.v0,
           v1 := c.v1 * (-1.780759334211551067290090872e-1)
                 + c.v2 * 3.867911188667345780375729105e-1,
           v2 := c.v0 * 3.155443620884047221646914261e-30
                 + c.v1 * (-2.742395246410785275938007739e-1)
                 + c.v2 * (-2.512094867865302853146089398e-1) }
  else none

def color_YIQ_to_RGB (_P : prims) (c : color) (_e : Nat) : Option color :=
  if c.type = .YIQ then
    some { type := .RGB, extra := c.extra,
           v0 := c.v0 + c.v1 * 9.563000521420394701478042310e-1
                 + c.v2 * (-6.209682015704038246103012680e-1),
           v1 := c.v0 + c.v1 * (-2.720883840788609953919979558e-1)
                 + c.v2 * 6.473748500336683799608873068e-1,
           v2 := c.v0 + c.v1 * (-1.107173983650687695430619869e0)
                 + c.v2 * (-1.704732848247478907706673421e0) }
  else none

def color_YIQ_to_YDbDr (_P : prims) (c : color) (_e : Nat) : Option color :=
  if c.type = .YIQ then
    some { type := .YDBDR, extra := c.extra,
           v0 := c.v0 + c.v1 * 6.310887241768094443293828522e-30,
           v1 := c.v1 * (-1.665759503618924038384894227e0)
                 + c.v2 * (-2.564795583198520749405186986e0),
           v2 := c.v0 * 1.009741958682895110927012564e-28
                 + c.v1 * 1.818470712561110718554954408e0
                 + c.v2 * (-1.180813998136017543802470171e0) }
  else none

def color_XYZ_to_LinearRGB (_P : prims) (c : color) (_e : Nat) : Option color :=
  if c.type = .XYZ then
    some { type := .LINEAR_RGB, extra := c.extra,
           v0 := c.v0 * (641589/197960) + c.v1 * (-608687/395920) + c.v2 * (-49353/98980),
           v1 := c.v0 * (-42591639/43944050) + c.v1 * (82435961/43944050) + c.v2 * (1826061/43944050),
           v2 := c.v0 * (49353/887015) + c.v1 * (-180961/887015) + c.v2 * (49353/46685) }
  else none

def color_XYZ_to_xyY (_P : prims) (c : color) (_e : Nat) : Option color :=
  if c.type = .XYZ then
    let X := c.v0; let Y := c.v1
    let div := X + Y + c.v2
    if |div| > 0 then
      some { type := .XYY, extra := c.extra, v0 := X / div, v1 := Y / div, v2 := Y }
    else
      some { type := .XYY, extra := c.extra, v0 := X, v1 := Y, v2 := Y }
  else none

def color_XYZ_to_Lab (P : prims) (c : color) (_e : Nat) : Option color :=
  if c.type = .XYZ then
    let X := if c.v0 > 3377268/401223439 then P.pw (c.v0 * COLOR_REF_Xr) (1/3)
             else c.v0 * (13835291/1688634) + 4/29
    let Y := if c.v1 > 216/24389 then P.pw c.v1 (1/3)
             else c.v1 * (841/108) + 4/29
    let Z := if c.v2 > 3869316/401223439 then P.pw (c.v2 * COLOR_REF_Zr) (1/3)
             else c.v2 * (13835291/1934658) + 4/29
    some { type := .LAB, extra := c.extra,
           v0 := Y * 116 - 16, v1 := (X - Y) * 500, v2 := (Y - Z) * 200 }
  else none

def color_XYZ_to_Luv (P : prims) (c : color) (_e : Nat) : Option color :=
  if c.type = .XYZ then
    let X := c.v0; let Y := c.v1
    let div := X + Y * 15 + c.v2 * 3
    let L := if Y > 216/24389 then P.pw Y (1/3) * 116 - 16 else Y * (24389/27)
    let q := if |div| > 0 then (X * (1/div), Y * (1/div)) else (X, Y)
    some { type := .LUV, extra := c.extra,
           v0 := L, v1 := (q.1 * 52 - COLOR_REF_U13) * L, v2 := (q.2 * 117 - COLOR_REF_V13) * L }
  else none

def color_xyY_to_XYZ (_P : prims) (c : color) (_e : Nat) : Option color :=
  if c.type = .XYY then
    let x := c.v0; let y := c.v1; let Y := c.v2
    if |y| > 0 then
      let mul := Y / y
      some { type := .XYZ, extra := c.extra, v0 := x * mul, v1 := Y, v2 := (1 - x - y) * mul }
    else
      some { type := .XYZ, extra := c.extra, v0 := 0, v1 := 0, v2 := 0 }
  else none

def color_Lab_to_LinearRGB (_P : prims) (c : color) (_e : Nat) : Option color :=
  if c.type = .LAB then
    let Y0 := c.v0 * (1/116) + 16/116
    let X0 := c.v1 * (1/500) + Y0
    let Z0 := c.v2 * (-1/200) + Y0
    let X := if X0 > 6/29 then X0 * X0 * X0 else X0 * (108/841) - 432/24389
    let Y := if c.v0 > 8 then Y0 * Y0 * Y0 else c.v0 * (27/24389)
    let Z := if Z0 > 6/29 then Z0 * Z0 * Z0 else Z0 * (108/841) - 432/24389
    some { type := .LINEAR_RGB, extra := c.extra,
           v0 := X * (1219569/395920) + Y * (-608687/395920) + Z * (-107481/197960),
           v1 := X * (-80960619/87888100) + Y * (82435961/43944050) + Z * (3976797/87888100),
           v2 := X * (93813/1774030) + Y * (-180961/887015) + Z * (107481/93370) }
  else none

def color_Lab_to_XYZ (_P : prims) (c : color) (_e : Nat) : Option color :=
  if c.type = .LAB then
    let L := c.v0
    let Y0 := L * (1/116) + 16/116
    let X0 := c.v1 * (1/500) + Y0
    let Z0 := c.v2 * (-1/200) + Y0
    some { type := .XYZ, extra := c.extra,
           v0 := if X0 > 6/29 then X0 * X0 * X0 * COLOR_REF_X
                 else X0 * (1688634/13835291) - 6754536/401223439,
           v1 := if L > 8 then Y0 * Y0 * Y0 else L * (27/24389),
           v2 := if Z0 > 6/29 then Z0 * Z0 * Z0 * COLOR_REF_Z
                 else Z0 * (1934658/13835291) - 7738632/401223439 }
  else none

def color_Lab_to_LCHab (P : prims) (c : color) (_e : Nat) : Option color :=
  if c.type = .LAB then
    some { type := .LCHAB, extra := c.extra,
           v0 := c.v0, v1 := P.sqrt (c.v1 * c.v1 + c.v2 * c.v2), v2 := P.atan2 c.v2 c.v1 }
  else none

def color_LCHab_to_Lab (P : prims) (c : color) (_e : Nat) : Option color :=
  if c.type = .LCHAB then
    some { type := .LAB, extra := c.extra,
           v0 := c.v0, v1 := P.cos c.v2 * c.v1, v2 := P.sin c.v2 * c.v1 }
  else none

def color_Luv_to_XYZ (_P : prims) (c : color) (_e : Nat) : Option color :=
  if c.type = .LUV then
    let L := c.v0; let u := c.v1; let v := c.v2
    let y := if L > 8 then
               let y0 := L * (1/116) + 16/116
               y0 * y0 * y0
             else L * (27/24389)
    let a := L / (L * COLOR_REF_U13 + u) * (52/3) - 1/3
    let b := 5 * y
    let cc := (L / (L * COLOR_REF_V13 + v) * 39 - 5) * y
    let x := (cc + b) / (a + 1/3)
    some { type := .XYZ, extra := c.extra, v0 := x, v1 := y, v2 := x * a - b }
  else none

/-- Edge `color_Luv_to_LCHuv`: the C code retags the value as Lab, calls
`color_Lab_to_LCHab`, then retags the result as LCHuv. -/
def color_Luv_to_LCHuv (P : prims) (c : color) (e : Nat) : Option color :=
  if c.type = .LUV then
    (color_Lab_to_LCHab P { c with type := .LAB } e).map fun c1 => { c1 with type := .LCHUV }
  else none

/-- Edge `color_LCHuv_to_Luv`: retags as LCHab, calls `color_LCHab_to_Lab`,
retags the result as Luv. -/
def color_LCHuv_to_Luv (P : prims) (c : color) (e : Nat) : Option color :=
  if c.type = .LCHUV then
    (color_LCHab_to_Lab P { c with type := .LCHAB } e).map fun c1 => { c1 with type := .LUV }
  else none

def color_LCHuv_to_LSHuv (_P : prims) (c : color) (_e : Nat) : Option color :=
  if c.type = .LCHUV then
    some { type := .LSHUV, extra := c.extra, v0 := c.v0, v1 := c.v1 / c.v0, v2 := c.v2 }
  else none

def color_LSHuv_to_LCHuv (_P : prims) (c : color) (_e : Nat) : Option color :=
  if c.type = .LSHUV then
    some { type := .LCHUV, extra := c.extra, v0 := c.v0, v1 := c.v1 * c.v0, v2 := c.v2 }
  else none

/-! ## Routing engine

The C `g_descriptors` table pairs, per source space, an array of direct
conversion function pointers (indexed by destination) and an array of
proxy next-hop spaces.  `conv_id` names the 38 conversion functions; the
two tables below transcribe the initializer lists (absent / trailing
entries of the C arrays are `NULL` resp. `COLOR_NONE`, i.e. `none`). -/

inductive conv_id where
  | cRGB8_to_RGB | cRGB8_to_LinearRGB
  | cRGB_to_RGB8 | cRGB_to_LinearRGB | cRGB_to_HSL | cRGB_to_HSV
  | cRGB_to_YUV | cRGB_to_YDbDr | cRGB_to_YIQ
  | cLinearRGB_to_RGB8 | cLinearRGB_to_RGB | cLinearRGB_to_XYZ | cLinearRGB_to_Lab
  | cHSL_to_RGB | cHSV_to_RGB
  | cYUV_to_RGB | cYUV_to_YUV | cYUV_to_YCbCr
  | cYCbCr_to_YUV | cYCbCr_to_YCbCr
  | cYDbDr_to_RGB | cYDbDr_to_YIQ
  | cYIQ_to_RGB | cYIQ_to_YDbDr
  | cXYZ_to_LinearRGB | cXYZ_to_xyY | cXYZ_to_Lab | cXYZ_to_Luv
  | cxyY_to_XYZ
  | cLab_to_LinearRGB | cLab_to_XYZ | cLab_to_LCHab
  | cLuv_to_XYZ | cLuv_to_LCHuv
  | cLCHab_to_Lab
  | cLCHuv_to_Luv | cLCHuv_to_LSHuv
  | cLSHuv_to_LCHuv
  deriving DecidableEq, Repr

def apply_conv (P : prims) : conv_id → color → Nat → Option color
  | .cRGB8_to_RGB => color_RGB8_to_RGB P
  | .cRGB8_to_LinearRGB => color_RGB8_to_LinearRGB P
  | .cRGB_to_RGB8 => color_RGB_to_RGB8 P
  | .cRGB_to_LinearRGB => color_RGB_to_LinearRGB P
  | .cRGB_to_HSL => color_RGB_to_HSL P
  | .cRGB_to_HSV => color_RGB_to_HSV P
  | .cRGB_to_YUV => color_RGB_to_YUV P
  | .cRGB_to_YDbDr => color_RGB_to_YDbDr P
  | .cRGB_to_YIQ => color_RGB_to_YIQ P
  | .cLinearRGB_to_RGB8 => color_LinearRGB_to_RGB8 P
  | .cLinearRGB_to_RGB => color_LinearRGB_to_RGB P
  | .cLinearRGB_to_XYZ => color_LinearRGB_to_XYZ P
  | .cLinearRGB_to_Lab => color_LinearRGB_to_Lab P
  | .cHSL_to_RGB => color_HSL_to_RGB P
  | .cHSV_to_RGB => color_HSV_to_RGB P
  | .cYUV_to_RGB => color_YUV_to_RGB P
  | .cYUV_to_YUV => color_YUV_to_YUV P
  | .cYUV_to_YCbCr => color_YUV_to_YCbCr P
  | .cYCbCr_to_YUV => color_YCbCr_to_YUV P
  | .cYCbCr_to_YCbCr => color_YCbCr_to_YCbCr P
  | .cYDbDr_to_RGB => color_YDbDr_to_RGB P
  | .cYDbDr_to_YIQ => color_YDbDr_to_YIQ P
  | .cYIQ_to_RGB => color_YIQ_to_RGB P
  | .cYIQ_to_YDbDr => color_YIQ_to_YDbDr P
  | .cXYZ_to_LinearRGB => color_XYZ_to_LinearRGB P
  | .cXYZ_to_xyY => color_XYZ_to_xyY P
  | .cXYZ_to_Lab => color_XYZ_to_Lab P
  | .cXYZ_to_Luv => color_XYZ_to_Luv P
  | .cxyY_to_XYZ => color_xyY_to_XYZ P
  | .cLab_to_LinearRGB => color_Lab_to_LinearRGB P
  | .cLab_to_XYZ => color_Lab_to_XYZ P
  | .cLab_to_LCHab => color_Lab_to_LCHab P
  | .cLuv_to_XYZ => color_Luv_to_XYZ P
  | .cLuv_to_LCHuv => color_Luv_to_LCHuv P
  | .cLCHab_to_Lab => color_LCHab_to_Lab P
  | .cLCHuv_to_Luv => color_LCHuv_to_Luv P
  | .cLCHuv_to_LSHuv => color_LCHuv_to_LSHuv P
  | .cLSHuv_to_LCHuv => color_LSHuv_to_LCHuv P

/-- The direct-edge table: `g_descriptors[src].conversions[dst]`. -/
def conversions : color_type → color_type → Option conv_id
  | .RGB8, .RGB => some .cRGB8_to_RGB
  | .RGB8, .LINEAR_RGB => some .cRGB8_to_LinearRGB
  | .RGB, .RGB8 => some .cRGB_to_RGB8
  | .RGB, .LINEAR_RGB => some .cRGB_to_LinearRGB
  | .RGB, .HSL => some .cRGB_to_HSL
  | .RGB, .HSV => some .cRGB_to_HSV
  | .RGB, .YUV => some .cRGB_to_YUV
  | .RGB, .YDBDR => some .cRGB_to_YDbDr
  | .RGB, .YIQ => some .cRGB_to_YIQ
  | .LINEAR_RGB, .RGB8 => some .cLinearRGB_to_RGB8
  | .LINEAR_RGB, .RGB => some .cLinearRGB_to_RGB
  | .LINEAR_RGB, .XYZ => some .cLinearRGB_to_XYZ
  | .LINEAR_RGB, .LAB => some .cLinearRGB_to_Lab
  | .HSL, .RGB => some .cHSL_to_RGB
  | .HSV, .RGB => some .cHSV_to_RGB
  | .YUV, .RGB => some .cYUV_to_RGB
  | .YUV, .YUV => some .cYUV_to_YUV
  | .YUV, .YCBCR => some .cYUV_to_YCbCr
  | .YCBCR, .YUV => some .cYCbCr_to_YUV
  | .YCBCR, .YCBCR => some .cYCbCr_to_YCbCr
  | .YDBDR, .RGB => some .cYDbDr_to_RGB
  | .YDBDR, .YIQ => some .cYDbDr_to_YIQ
  | .YIQ, .RGB => some .cYIQ_to_RGB
  | .YIQ, .YDBDR => some .cYIQ_to_YDbDr
  | .XYZ, .LINEAR_RGB => some .cXYZ_to_LinearRGB
  | .XYZ, .XYY => some .cXYZ_to_xyY
  | .XYZ, .LAB => some .cXYZ_to_Lab
  | .XYZ, .LUV => some .cXYZ_to_Luv
  | .XYY, .XYZ => some .cxyY_to_XYZ
  | .LAB, .LINEAR_RGB => some .cLab_to_LinearRGB
  | .LAB, .XYZ => some .cLab_to_XYZ
  | .LAB, .LCHAB => some .cLab_to_LCHab
  | .LUV, .XYZ => some .cLuv_to_XYZ
  | .LUV, .LCHUV => some .cLuv_to_LCHuv
  | .LCHAB, .LAB => some .cLCHab_to_Lab
  | .LCHUV, .LUV => some .cLCHuv_to_Luv
  | .LCHUV, .LSHUV => some .cLCHuv_to_LSHuv
  | .LSHUV, .LCHUV => some .cLSHuv_to_LCHuv
  | _, _ => none

/-- The proxy next-hop table: `g_descriptors[src].proxy_conversions[dst]`
(`COLOR_NONE` becomes `none`). -/
def proxy : color_type → color_type → Option color_type
  | .RGB8, .HSL => some .RGB
  | .RGB8, .HSV => some .RGB
  | .RGB8, .YUV => some .RGB
  | .RGB8, .YCBCR => some .RGB
  | .RGB8, .YDBDR => some .RGB
  | .RGB8, .YIQ => some .RGB
  | .RGB8, .XYZ => some .LINEAR_RGB
  | .RGB8, .XYY => some .LINEAR_RGB
  | .RGB8, .LAB => some .LINEAR_RGB
  | .RGB8, .LUV => some .LINEAR_RGB
  | .RGB8, .LCHAB => some .LINEAR_RGB
  | .RGB8, .LCHUV => some .LINEAR_RGB
  | .RGB8, .LSHUV => some .LINEAR_RGB
  | .RGB, .YCBCR => some .YUV
  | .RGB, .XYZ => some .LINEAR_RGB
  | .RGB, .XYY => some .LINEAR_RGB
  | .RGB, .LAB => some .LINEAR_RGB
  | .RGB, .LUV => some .LINEAR_RGB
  | .RGB, .LCHAB => some .LINEAR_RGB
  | .RGB, .LCHUV => some .LINEAR_RGB
  | .RGB, .LSHUV => some .LINEAR_RGB
  | .LINEAR_RGB, .HSL => some .RGB
  | .LINEAR_RGB, .HSV => some .RGB
  | .LINEAR_RGB, .YUV => some .RGB
  | .LINEAR_RGB, .YCBCR => some .RGB
  | .LINEAR_RGB, .YDBDR => some .RGB
  | .LINEAR_RGB, .YIQ => some .RGB
  | .LINEAR_RGB, .XYY => some .XYZ
  | .LINEAR_RGB, .LUV => some .XYZ
  | .LINEAR_RGB, .LCHAB => some .LAB
  | .LINEAR_RGB, .LCHUV => some .XYZ
  | .LINEAR_RGB, .LSHUV => some .XYZ
  | .HSL, .RGB8 => some .RGB
  | .HSL, .LINEAR_RGB => some .RGB
  | .HSL, .HSV => some .RGB
  | .HSL, .YUV => some .RGB
  | .HSL, .YCBCR => some .RGB
  | .HSL, .YDBDR => some .RGB
  | .HSL, .YIQ => some .RGB
  | .HSL, .XYZ => some .RGB
  | .HSL, .XYY => some .RGB
  | .HSL, .LAB => some .RGB
  | .HSL, .LUV => some .RGB
  | .HSL, .LCHAB => some .RGB
  | .HSL, .LCHUV => some .RGB
  | .HSL, .LSHUV => some .RGB
  | .HSV, .RGB8 => some .RGB
  | .HSV, .LINEAR_RGB => some .RGB
  | .HSV, .HSL => some .RGB
  | .HSV, .YUV => some .RGB
  | .HSV, .YCBCR => some .RGB
  | .HSV, .YDBDR => some .RGB
  | .HSV, .YIQ => some .RGB
  | .HSV, .XYZ => some .RGB
  | .HSV, .XYY => some .RGB
  | .HSV, .LAB => some .RGB
  | .HSV, .LUV => some .RGB
  | .HSV, .LCHAB => some .RGB
  | .HSV, .LCHUV => some .RGB
  | .HSV, .LSHUV => some .RGB
  | .YUV, .RGB8 => some .RGB
  | .YUV, .LINEAR_RGB => some .RGB
  | .YUV, .HSL => some .RGB
  | .YUV, .HSV => some .RGB
  | .YUV, .YDBDR => some .RGB
  | .YUV, .YIQ => some .RGB
  | .YUV, .XYZ => some .RGB
  | .YUV, .XYY => some .RGB
  | .YUV, .LAB => some .RGB
  | .YUV, .LUV => some .RGB
  | .YUV, .LCHAB => some .RGB
  | .YUV, .LCHUV => some .RGB
  | .YUV, .LSHUV => some .RGB
  | .YCBCR, .RGB8 => some .YUV
  | .YCBCR, .RGB => some .YUV
  | .YCBCR, .LINEAR_RGB => some .YUV
  | .YCBCR, .HSL => some .YUV
  | .YCBCR, .HSV => some .YUV
  | .YCBCR, .YDBDR => some .YUV
  | .YCBCR, .YIQ => some .YUV
  | .YCBCR, .XYZ => some .YUV
  | .YCBCR, .XYY => some .YUV
  | .YCBCR, .LAB => some .YUV
  | .YCBCR, .LUV => some .YUV
  | .YCBCR, .LCHAB => some .YUV
  | .YCBCR, .LCHUV => some .YUV
  | .YCBCR, .LSHUV => some .YUV
  | .YDBDR, .RGB8 => some .RGB
  | .YDBDR, .LINEAR_RGB => some .RGB
  | .YDBDR, .HSL => some .RGB
  | .YDBDR, .HSV => some .RGB
  | .YDBDR, .YUV => some .RGB
  | .YDBDR, .YCBCR => some .RGB
  | .YDBDR, .XYZ => some .RGB
  | .YDBDR, .XYY => some .RGB
  | .YDBDR, .LAB => some .RGB
  | .YDBDR, .LUV => some .RGB
  | .YDBDR, .LCHAB => some .RGB
  | .YDBDR, .LCHUV => some .RGB
  | .YDBDR, .LSHUV => some .RGB
  | .YIQ, .RGB8 => some .RGB
  | .YIQ, .LINEAR_RGB => some .RGB
  | .YIQ, .HSL => some .RGB
  | .YIQ, .HSV => some .RGB
  | .YIQ, .YUV => some .RGB
  | .YIQ, .YCBCR => some .RGB
  | .YIQ, .XYZ => some .RGB
  | .YIQ, .XYY => some .RGB
  | .YIQ, .LAB => some .RGB
  | .YIQ, .LUV => some .RGB
  | .YIQ, .LCHAB => some .RGB
  | .YIQ, .LCHUV => some .RGB
  | .YIQ, .LSHUV => some .RGB
  | .XYZ, .RGB8 => some .LINEAR_RGB
  | .XYZ, .RGB => some .LINEAR_RGB
  | .XYZ, .HSL => some .LINEAR_RGB
  | .XYZ, .HSV => some .LINEAR_RGB
  | .XYZ, .YUV => some .LINEAR_RGB
  | .XYZ, .YCBCR => some .LINEAR_RGB
  | .XYZ, .YDBDR => some .LINEAR_RGB
  | .XYZ, .YIQ => some .LINEAR_RGB
  | .XYZ, .LCHAB => some .LAB
  | .XYZ, .LCHUV => some .LUV
  | .XYZ, .LSHUV => some .LUV
  | .XYY, .RGB8 => some .XYZ
  | .XYY, .RGB => some .XYZ
  | .XYY, .LINEAR_RGB => some .XYZ
  | .XYY, .HSL => some .XYZ
  | .XYY, .HSV => some .XYZ
  | .XYY, .YUV => some .XYZ
  | .XYY, .YCBCR => some .XYZ
  | .XYY, .YDBDR => some .XYZ
  | .XYY, .YIQ => some .XYZ
  | .XYY, .LAB => some .XYZ
  | .XYY, .LUV => some .XYZ
  | .XYY, .LCHAB => some .XYZ
  | .XYY, .LCHUV => some .XYZ
  | .XYY, .LSHUV => some .XYZ
  | .LAB, .RGB8 => some .LINEAR_RGB
  | .LAB, .RGB => some .LINEAR_RGB
  | .LAB, .HSL => some .LINEAR_RGB
  | .LAB, .HSV => some .LINEAR_RGB
  | .LAB, .YUV => some .LINEAR_RGB
  | .LAB, .YCBCR => some .LINEAR_RGB
  | .LAB, .YDBDR => some .LINEAR_RGB
  | .LAB, .YIQ => some .LINEAR_RGB
  | .LAB, .XYY => some .XYZ
  | .LAB, .LUV => some .XYZ
  | .LAB, .LCHUV => some .XYZ
  | .LAB, .LSHUV => some .XYZ
  | .LUV, .RGB8 => some .XYZ
  | .LUV, .RGB => some .XYZ
  | .LUV, .LINEAR_RGB => some .XYZ
  | .LUV, .HSL => some .XYZ
  | .LUV, .HSV => some .XYZ
  | .LUV, .YUV => some .XYZ
  | .LUV, .YCBCR => some .XYZ
  | .LUV, .YDBDR => some .XYZ
  | .LUV, .YIQ => some .XYZ
  | .LUV, .XYY => some .XYZ
  | .LUV, .LAB => some .XYZ
  | .LUV, .LCHAB => some .XYZ
  | .LUV, .LSHUV => some .LCHUV
  | .LCHAB, .RGB8 => some .LAB
  | .LCHAB, .RGB => some .LAB
  | .LCHAB, .LINEAR_RGB => some .LAB
  | .LCHAB, .HSL => some .LAB
  | .LCHAB, .HSV => some .LAB
  | .LCHAB, .YUV => some .LAB
  | .LCHAB, .YCBCR => some .LAB
  | .LCHAB, .YDBDR => some .LAB
  | .LCHAB, .YIQ => some .LAB
  | .LCHAB, .XYZ => some .LAB
  | .LCHAB, .XYY => some .LAB
  | .LCHAB, .LUV => some .LAB
  | .LCHAB, .LCHUV => some .LAB
  | .LCHAB, .LSHUV => some .LAB
  | .LCHUV, .RGB8 => some .LUV
  | .LCHUV, .RGB => some .LUV
  | .LCHUV, .LINEAR_RGB => some .LUV
  | .LCHUV, .HSL => some .LUV
  | .LCHUV, .HSV => some .LUV
  | .LCHUV, .YUV => some .LUV
  | .LCHUV, .YCBCR => some .LUV
  | .LCHUV, .YDBDR => some .LUV
  | .LCHUV, .YIQ => some .LUV
  | .LCHUV, .XYZ => some .LUV
  | .LCHUV, .XYY => some .LUV
  | .LCHUV, .LAB => some .LUV
  | .LCHUV, .LCHAB => some .LUV
  | .LSHUV, .RGB8 => some .LCHUV
  | .LSHUV, .RGB => some .LCHUV
  | .LSHUV, .LINEAR_RGB => some .LCHUV
  | .LSHUV, .HSL => some .LCHUV
  | .LSHUV, .HSV => some .LCHUV
  | .LSHUV, .YUV => some .LCHUV
  | .LSHUV, .YCBCR => some .LCHUV
  | .LSHUV, .YDBDR => some .LCHUV
  | .LSHUV, .YIQ => some .LCHUV
  | .LSHUV, .XYZ => some .LCHUV
  | .LSHUV, .XYY => some .LCHUV
  | .LSHUV, .LAB => some .LCHUV
  | .LSHUV, .LUV => some .LCHUV
  | .LSHUV, .LCHAB => some .LCHUV
  | _, _ => none

/-- One iteration of the `color_convert` while-loop body: select the direct
edge to the target, or the edge to the proxy next-hop; the `assert`s (proxy
valid, function pointer non-NULL, `c->type == tmp_type` after the call) are
failures. -/
def convert_step (P : prims) (c : color) (nt : color_type) (ne : Nat) : Option color :=
  match conversions c.type nt with
  | some f => (apply_conv P f c ne).bind fun r => if r.type = nt then some r else none
  | none =>
    match proxy c.type nt with
    | some p =>
      match conversions c.type p with
      | some f => (apply_conv P f c ne).bind fun r => if r.type = p then some r else none
      | none => none
    | none => none

/-- The engine `color_convert`, fuel-indexed: loops while the tag or flags differ from
the target, applying `convert_step`; returns the final value together with
the number of loop iterations (edge function applications).  Exhausting the
fuel is a failure; fuel 16 is ample (the true maximum is 7 hops). -/
def color_convert (P : prims) : Nat → color → color_type → Nat → Option (color × Nat)
  | fuel, c, nt, ne =>
    if c.type = nt ∧ c.extra = ne then some (c, 0)
    else
      match fuel with
      | 0 => none
      | f + 1 =>
        (convert_step P c nt ne).bind fun c1 =>
          (color_convert P f c1 nt ne).map fun r => (r.1, r.2 + 1)

/-! ## Tag-level projection of the engine

The loop condition and every edge's effect on `(type, extra)` depend only
on `(type, extra)` and the target flags, never on the numeric payload.  The
following functions compute exactly that projection; the bridge lemmas
below prove it agrees with the full model, which makes the routing claims
decidable by finite enumeration. -/

def tagOf (c : color) : color_type × Nat := (c.type, c.extra)

def yuv_to_yuv_tag (t : color_type) (x e : Nat) : Option (color_type × Nat) :=
  if t = .YUV ∧ x ≠ e then some (.YUV, e) else none

def yuv_to_ycbcr_tag (t : color_type) (x e : Nat) : Option (color_type × Nat) :=
  if t = .YUV then
    (if x &&& COLOR_YUV_MAT_MASK ≠ e &&& COLOR_YUV_MAT_MASK
     then yuv_to_yuv_tag t x e else some (t, x)).bind fun _ =>
      some (.YCBCR, e)
  else none

def ycbcr_to_yuv_tag (t : color_type) (x e : Nat) : Option (color_type × Nat) :=
  if t = .YCBCR then
    if (x &&& 251) &&& COLOR_YUV_MAT_MASK ≠ e &&& COLOR_YUV_MAT_MASK
    then yuv_to_yuv_tag .YUV (x &&& 251) e else some (.YUV, x &&& 251)
  else none

def ycbcr_to_ycbcr_tag (t : color_type) (x e : Nat) : Option (color_type × Nat) :=
  if t = .YCBCR ∧ x ≠ e then
    (ycbcr_to_yuv_tag t x e).bind fun r =>
      (yuv_to_ycbcr_tag r.1 r.2 e).bind fun r2 =>
        if r2.2 = e then some r2 else none
  else none

def conv_tag : conv_id → color_type → Nat → Nat → Option (color_type × Nat)
  | .cRGB8_to_RGB, t, x, _ => if t = .RGB8 then some (.RGB, x) else none
  | .cRGB8_to_LinearRGB, t, x, _ => if t = .RGB8 then some (.LINEAR_RGB, x) else none
  | .cRGB_to_RGB8, t, x, _ => if t = .RGB then some (.RGB8, x) else none
  | .cRGB_to_LinearRGB, t, x, _ => if t = .RGB then some (.LINEAR_RGB, x) else none
  | .cRGB_to_HSL, t, x, _ => if t = .RGB then some (.HSL, x) else none
  | .cRGB_to_HSV, t, x, _ => if t = .RGB then some (.HSV, x) else none
  | .cRGB_to_YUV, t, _, e => if t = .RGB then some (.YUV, e) else none
  | .cRGB_to_YDbDr, t, x, _ => if t = .RGB then some (.YDBDR, x) else none
  | .cRGB_to_YIQ, t, x, _ => if t = .RGB then some (.YIQ, x) else none
  | .cLinearRGB_to_RGB8, t, x, _ => if t = .LINEAR_RGB then some (.RGB8, x) else none
  | .cLinearRGB_to_RGB, t, x, _ => if t = .LINEAR_RGB then some (.RGB, x) else none
  | .cLinearRGB_to_XYZ, t, x, _ => if t = .LINEAR_RGB then some (.XYZ, x) else none
  | .cLinearRGB_to_Lab, t, x, _ => if t = .LINEAR_RGB then some (.LAB, x) else none
  | .cHSL_to_RGB, t, x, _ => if t = .HSL then some (.RGB, x) else none
  | .cHSV_to_RGB, t, x, _ => if t = .HSV then some (.RGB, x) else none
  | .cYUV_to_RGB, t, _, _ => if t = .YUV then some (.RGB, 0) else none
  | .cYUV_to_YUV, t, x, e => yuv_to_yuv_tag t x e
  | .cYUV_to_YCbCr, t, x, e => yuv_to_ycbcr_tag t x e
  | .cYCbCr_to_YUV, t, x, e => ycbcr_to_yuv_tag t x e
  | .cYCbCr_to_YCbCr, t, x, e => ycbcr_to_ycbcr_tag t x e
  | .cYDbDr_to_RGB, t, x, _ => if t = .YDBDR then some (.RGB, x) else none
  | .cYDbDr_to_YIQ, t, x, _ => if t = .YDBDR then some (.YIQ, x) else none
  | .cYIQ_to_RGB, t, x, _ => if t = .YIQ then some (.RGB, x) else none
  | .cYIQ_to_YDbDr, t, x, _ => if t = .YIQ then some (.YDBDR, x) else none
  | .cXYZ_to_LinearRGB, t, x, _ => if t = .XYZ then some (.LINEAR_RGB, x) else none
  | .cXYZ_to_xyY, t, x, _ => if t = .XYZ then some (.XYY, x) else none
  | .cXYZ_to_Lab, t, x, _ => if t = .XYZ then some (.LAB, x) else none
  | .cXYZ_to_Luv, t, x, _ => if t = .XYZ then some (.LUV, x) else none
  | .cxyY_to_XYZ, t, x, _ => if t = .XYY then some (.XYZ, x) else none
  | .cLab_to_LinearRGB, t, x, _ => if t = .LAB then some (.LINEAR_RGB, x) else none
  | .cLab_to_XYZ, t, x, _ => if t = .LAB then some (.XYZ, x) else none
  | .cLab_to_LCHab, t, x, _ => if t = .LAB then some (.LCHAB, x) else none
  | .cLuv_to_XYZ, t, x, _ => if t = .LUV then some (.XYZ, x) else none
  | .cLuv_to_LCHuv, t, x, _ => if t = .LUV then some (.LCHUV, x) else none
  | .cLCHab_to_Lab, t, x, _ => if t = .LCHAB then some (.LAB, x) else none
  | .cLCHuv_to_Luv, t, x, _ => if t = .LCHUV then some (.LUV, x) else none
  | .cLCHuv_to_LSHuv, t, x, _ => if t = .LCHUV then some (.LSHUV, x) else none
  | .cLSHuv_to_LCHuv, t, x, _ => if t = .LSHUV then some (.LCHUV, x) else none

def tag_step (t : color_type) (x : Nat) (nt : color_type) (ne : Nat) :
    Option (color_type × Nat) :=
  match conversions t nt with
  | some f => (conv_tag f t x ne).bind fun r => if r.1 = nt then some r else none
  | none =>
    match proxy t nt with
    | some p =>
      match conversions t p with
      | some f => (conv_tag f t x ne).bind fun r => if r.1 = p then some r else none
      | none => none
    | none => none

def tag_convert : Nat → color_type → Nat → color_type → Nat →
    Option ((color_type × Nat) × Nat)
  | fuel, t, x, nt, ne =>
    if t = nt ∧ x = ne then some ((t, x), 0)
    else
      match fuel with
      | 0 => none
      | f + 1 =>
        (tag_step t x nt ne).bind fun r =>
          (tag_convert f r.1 r.2 nt ne).map fun s => (s.1, s.2 + 1)

/-! ### Bridge lemmas: the full model projects onto the tag model -/

theorem yuv_to_rgb_bridge (P : prims) (c : color) (e : Nat) :
    Option.map tagOf (color_YUV_to_RGB P c e)
      = if c.type = .YUV then some ((.RGB : color_type), 0) else none := by
  unfold color_YUV_to_RGB
  split <;> simp [tagOf]

theorem rgb_to_yuv_bridge (P : prims) (c : color) (e : Nat) :
    Option.map tagOf (color_RGB_to_YUV P c e)
      = if c.type = .RGB then some ((.YUV : color_type), e) else none := by
  unfold color_RGB_to_YUV
  split <;> simp [tagOf]

theorem yuv_to_yuv_bridge (P : prims) (c : color) (e : Nat) :
    Option.map tagOf (color_YUV_to_YUV P c e) = yuv_to_yuv_tag c.type c.extra e := by
  unfold color_YUV_to_YUV yuv_to_yuv_tag
  by_cases h : c.type = .YUV ∧ c.extra ≠ e
  · simp only [if_pos h]
    simp [color_YUV_to_RGB, color_RGB_to_YUV, h.1, tagOf]
  · simp [if_neg h]

theorem yuv_to_ycbcr_bridge (P : prims) (c : color) (e : Nat) :
    Option.map tagOf (color_YUV_to_YCbCr P c e) = yuv_to_ycbcr_tag c.type c.extra e := by
  unfold color_YUV_to_YCbCr yuv_to_ycbcr_tag
  by_cases h : c.type = .YUV
  · simp only [if_pos h]
    by_cases hm : c.extra &&& COLOR_YUV_MAT_MASK ≠ e &&& COLOR_YUV_MAT_MASK
    · simp only [if_pos hm]
      by_cases hx : c.extra ≠ e
      · have hb := yuv_to_yuv_bridge P c e
        rw [yuv_to_yuv_tag, if_pos ⟨h, hx⟩] at hb
        obtain ⟨c1, hc1, _⟩ := Option.map_eq_some'.mp hb
        simp [hc1, yuv_to_yuv_tag, if_pos (And.intro h hx), tagOf]
      · have hb := yuv_to_yuv_bridge P c e
        rw [yuv_to_yuv_tag, if_neg fun hh => hx hh.2] at hb
        have : color_YUV_to_YUV P c e = none := by
          cases hcc : color_YUV_to_YUV P c e
          · rfl
          · rw [hcc] at hb; simp at hb
        simp [this, yuv_to_yuv_tag, hx, h]
    · simp only [if_neg hm]
      simp [tagOf]
  · simp [if_neg h]

theorem ycbcr_to_yuv_bridge (P : prims) (c : color) (e : Nat) :
    Option.map tagOf (color_YCbCr_to_YUV P c e) = ycbcr_to_yuv_tag c.type c.extra e := by
  unfold color_YCbCr_to_YUV ycbcr_to_yuv_tag
  by_cases h : c.type = .YCBCR
  · simp only [if_pos h]
    by_cases hm : (c.extra &&& 251) &&& COLOR_YUV_MAT_MASK ≠ e &&& COLOR_YUV_MAT_MASK
    · simp only [if_pos hm]
      rw [yuv_to_yuv_bridge]
    · simp only [if_neg hm]
      simp [tagOf]
  · simp [if_neg h]

theorem ycbcr_to_ycbcr_bridge (P : prims) (c : color) (e : Nat) :
    Option.map tagOf (color_YCbCr_to_YCbCr P c e) = ycbcr_to_ycbcr_tag c.type c.extra e := by
  unfold color_YCbCr_to_YCbCr ycbcr_to_ycbcr_tag
  by_cases h : c.type = .YCBCR ∧ c.extra ≠ e
  · simp only [if_pos h]
    have h1 := ycbcr_to_yuv_bridge P c e
    cases hc1 : color_YCbCr_to_YUV P c e with
    | none => rw [hc1] at h1; rw [← h1]; rfl
    | some c1 =>
      rw [hc1] at h1
      rw [← h1]
      simp only [Option.map_some', Option.some_bind]
      have h2 := yuv_to_ycbcr_bridge P c1 e
      have hfst : (tagOf c1).1 = c1.type := rfl
      have hsnd : (tagOf c1).2 = c1.extra := rfl
      rw [hfst, hsnd]
      cases hc2 : color_YUV_to_YCbCr P c1 e with
      | none => rw [hc2] at h2; rw [← h2]; rfl
      | some c2 =>
        rw [hc2] at h2
        rw [← h2]
        simp only [Option.map_some', Option.some_bind]
        by_cases he : c2.extra = e
        · simp [he, tagOf]
        · simp [he, tagOf]
  · simp [if_neg h]

theorem apply_conv_bridge (P : prims) (f : conv_id) (c : color) (e : Nat) :
    Option.map tagOf (apply_conv P f c e) = conv_tag f c.type c.extra e := by
  cases f
  case cYUV_to_RGB => exact yuv_to_rgb_bridge P c e
  case cRGB_to_YUV => exact rgb_to_yuv_bridge P c e
  case cYUV_to_YUV => exact yuv_to_yuv_bridge P c e
  case cYUV_to_YCbCr => exact yuv_to_ycbcr_bridge P c e
  case cYCbCr_to_YUV => exact ycbcr_to_yuv_bridge P c e
  case cYCbCr_to_YCbCr => exact ycbcr_to_ycbcr_bridge P c e
  all_goals
    simp only [apply_conv, conv_tag, color_RGB8_to_RGB, color_RGB8_to_LinearRGB,
      color_RGB_to_RGB8, color_RGB_to_LinearRGB, color_RGB_to_HSL, color_RGB_to_HSV,
      color_RGB_to_YDbDr, color_RGB_to_YIQ, color_LinearRGB_to_RGB8, color_LinearRGB_to_RGB,
      color_LinearRGB_to_XYZ, color_LinearRGB_to_Lab, color_HSL_to_RGB, color_HSV_to_RGB,
      color_YDbDr_to_RGB, color_YDbDr_to_YIQ, color_YIQ_to_RGB, color_YIQ_to_YDbDr,
      color_XYZ_to_LinearRGB, color_XYZ_to_xyY, color_XYZ_to_Lab, color_XYZ_to_Luv,
      color_xyY_to_XYZ, color_Lab_to_LinearRGB, color_Lab_to_XYZ, color_Lab_to_LCHab,
      color_Luv_to_XYZ, color_Luv_to_LCHuv, color_LCHab_to_Lab, color_LCHuv_to_Luv,
      color_LCHuv_to_LSHuv, color_LSHuv_to_LCHuv]
  all_goals split <;> (try split) <;> simp_all [tagOf]

theorem try_conv_bridge (P : prims) (f : conv_id) (c : color) (d : color_type) (ne : Nat) :
    Option.map tagOf ((apply_conv P f c ne).bind fun r => if r.type = d then some r else none)
      = (conv_tag f c.type c.extra ne).bind fun r => if r.1 = d then some r else none := by
  have hb := apply_conv_bridge P f c ne
  cases ha : apply_conv P f c ne with
  | none => rw [ha] at hb; rw [← hb]; rfl
  | some r =>
    rw [ha] at hb; rw [← hb]
    simp only [Option.map_some', Option.some_bind]
    by_cases ht : r.type = d <;> simp [ht, tagOf]

theorem convert_step_bridge (P : prims) (c : color) (nt : color_type) (ne : Nat) :
    Option.map tagOf (convert_step P c nt ne) = tag_step c.type c.extra nt ne := by
  unfold convert_step tag_step
  cases conversions c.type nt with
  | some f => exact try_conv_bridge P f c nt ne
  | none =>
    dsimp only
    cases proxy c.type nt with
    | none => rfl
    | some p =>
      dsimp only
      cases conversions c.type p with
      | none => rfl
      | some f => exact try_conv_bridge P f c p ne

theorem color_convert_bridge (P : prims) :
    ∀ (fuel : Nat) (c : color) (nt : color_type) (ne : Nat),
      Option.map (fun r => (tagOf r.1, r.2)) (color_convert P fuel c nt ne)
        = tag_convert fuel c.type c.extra nt ne := by
  intro fuel
  induction fuel with
  | zero =>
    intro c nt ne
    unfold color_convert tag_convert
    by_cases h : c.type = nt ∧ c.extra = ne
    · simp [h, tagOf]
    · simp [h]
  | succ f ih =>
    intro c nt ne
    unfold color_convert tag_convert
    by_cases h : c.type = nt ∧ c.extra = ne
    · simp [h, tagOf]
    · simp only [if_neg h]
      have hb := convert_step_bridge P c nt ne
      cases hs : convert_step P c nt ne with
      | none => rw [hs] at hb; rw [← hb]; rfl
      | some c1 =>
        rw [hs] at hb; rw [← hb]
        simp only [Option.map_some', Option.some_bind]
        rw [show (tagOf c1).1 = c1.type from rfl, show (tagOf c1).2 = c1.extra from rfl,
            ← ih c1 nt ne]
        cases color_convert P f c1 nt ne <;> rfl

/-- Valid flag bytes per space: YUV selects one of 4 matrices, YCbCr one of
4 matrices and 2 ranges; the flags byte is meaningless (canonically 0)
elsewhere. -/
def applicable : color_type → Nat → Bool
  | .YUV, x => decide (x < 4)
  | .YCBCR, x => decide (x < 8)
  | _, x => decide (x = 0)

theorem applicable_lt {t : color_type} {x : Nat} (h : applicable t x = true) : x < 8 := by
  cases t <;> simp [applicable] at h <;> omega

/-- Bool-valued check that routing from `(s, x)` to `(t, y)` converges to
exactly the target tag within 7 loop iterations. -/
def tag_ok (s : color_type) (x : Nat) (t : color_type) (y : Nat) : Bool :=
  match tag_convert 16 s x t y with
  | some (r, n) => decide (r.1 = t) && decide (r.2 = y) && decide (n ≤ 7)
  | none => false

/-- Exhaustively verified routing totality at the tag level: from every
applicable source tag to every applicable target tag, the loop converges to
the exact target in at most 7 iterations, with no assertion failure. -/
theorem tag_total : ∀ s t : color_type, ∀ x < 8, ∀ y < 8,
    applicable s x = true → applicable t y = true → tag_ok s x t y = true := by decide

theorem tag_ok_spec {s : color_type} {x : Nat} {t : color_type} {y : Nat}
    (h : tag_ok s x t y = true) :
    ∃ n ≤ 7, tag_convert 16 s x t y = some ((t, y), n) := by
  unfold tag_ok at h
  cases hc : tag_convert 16 s x t y with
  | none => rw [hc] at h; exact absurd h (by simp)
  | some r =>
    rw [hc] at h
    obtain ⟨⟨rt, ry⟩, n⟩ := r
    simp only [Bool.and_eq_true, decide_eq_true_eq] at h
    refine ⟨n, h.2, ?_⟩
    rw [h.1.1, h.1.2]

/-- Shared totality fact for the full model: from any applicable starting
value and applicable target, `color_convert` succeeds, reaches exactly the
target tag and flags, and uses at most 7 loop iterations. -/
theorem convert_total_aux (P : prims) (c : color) (nt : color_type) (ne : Nat)
    (hs : applicable c.type c.extra = true) (ht : applicable nt ne = true) :
    ∃ r : color × Nat, color_convert P 16 c nt ne = some r ∧
      r.1.type = nt ∧ r.1.extra = ne ∧ r.2 ≤ 7 := by
  have hok := tag_total c.type nt c.extra (applicable_lt hs) ne (applicable_lt ht) hs ht
  obtain ⟨n, hn, hconv⟩ := tag_ok_spec hok
  have hb := color_convert_bridge P 16 c nt ne
  rw [hconv] at hb
  obtain ⟨r, hr, hrt⟩ := Option.map_eq_some'.mp hb
  simp only [tagOf, Prod.mk.injEq] at hrt
  exact ⟨r, hr, hrt.1.1, hrt.1.2, hrt.2 ▸ hn⟩

/-- A concrete interpretation of the libm primitives, used only to build
closed concrete inputs (the paths evaluated concretely below never call a
primitive whose value matters for the stated fact). -/
def P0 : prims :=
  { pw := fun _ _ => 0, sqrt := fun _ => 0, atan2 := fun _ _ => 0,
    sin := fun _ => 0, cos := fun _ => 0 }

/-- C1: for every color value whose tag is a valid non-sentinel space with
applicable flags, and every target (space, flags) with applicable flags,
`color_convert` terminates with the value's type equal to `new_type` and
extra equal to `new_extra`, and no error (modelled assert failure) is
signaled. -/
theorem C1_convert_total (P : prims) (c : color) (nt : color_type) (ne : Nat)
    (hs : applicable c.type c.extra = true) (ht : applicable nt ne = true) :
    ∃ r : color × Nat, color_convert P 16 c nt ne = some r ∧
      r.1.type = nt ∧ r.1.extra = ne := by
  obtain ⟨r, hr, h1, h2, _⟩ := convert_total_aux P c nt ne hs ht
  exact ⟨r, hr, h1, h2⟩

/-- C1 witness: a concrete RGB8 value converted to Lab. -/
theorem C1_witness :
    applicable color_type.RGB8 0 = true ∧ applicable color_type.LAB 0 = true ∧
    ∃ r : color × Nat,
      color_convert P0 16 ⟨.RGB8, 0, 0, 0, 0⟩ .LAB 0 = some r ∧
        r.1.type = .LAB ∧ r.1.extra = 0 :=
  ⟨by decide, by decide,
   C1_convert_total P0 ⟨.RGB8, 0, 0, 0, 0⟩ .LAB 0 (by decide) (by decide)⟩

def cex_LSHuv : color := ⟨.LSHUV, 0, 0, 0, 0⟩

/-- C2 counterexample: converting an LSHuv value to YCbCr applies 7 edge
conversion functions (LSHuv→LCHuv→Luv→XYZ→LinearRGB→RGB→YUV→YCbCr), so the
claimed bound of "at most three" is false. -/
theorem C2_counterexample :
    (color_convert P0 16 cex_LSHuv .YCBCR 0).map Prod.snd = some 7 ∧ ¬(7 ≤ 3) := by
  refine ⟨?_, by decide⟩
  have hb := color_convert_bridge P0 16 cex_LSHuv .YCBCR 0
  have ht : tag_convert 16 cex_LSHuv.type cex_LSHuv.extra .YCBCR 0
      = some ((.YCBCR, 0), 7) := by decide
  rw [ht] at hb
  obtain ⟨r, hr, hrt⟩ := Option.map_eq_some'.mp hb
  rw [hr, Option.map_some']
  have h2 : r.2 = 7 := congrArg Prod.snd hrt
  rw [h2]

/-- C2 amended: for every valid starting value and valid target, the loop
in `color_convert` applies at most seven (not three) edge conversion
functions before terminating. -/
theorem C2_hop_bound (P : prims) (c : color) (nt : color_type) (ne : Nat)
    (hs : applicable c.type c.extra = true) (ht : applicable nt ne = true) :
    ∃ r : color × Nat, color_convert P 16 c nt ne = some r ∧ r.2 ≤ 7 := by
  obtain ⟨r, hr, _, _, h7⟩ := convert_total_aux P c nt ne hs ht
  exact ⟨r, hr, h7⟩

/-- C2 witness: the hop bound applied to a concrete YCbCr→LSHuv request. -/
theorem C2_witness :
    applicable color_type.YCBCR 5 = true ∧ applicable color_type.LSHUV 0 = true ∧
    ∃ r : color × Nat, color_convert P0 16 ⟨.YCBCR, 5, 16, 128, 128⟩ .LSHUV 0 = some r ∧
      r.2 ≤ 7 :=
  ⟨by decide, by decide,
   C2_hop_bound P0 ⟨.YCBCR, 5, 16, 128, 128⟩ .LSHUV 0 (by decide) (by decide)⟩

/-- C4: a value already at the requested (target space, target flags) is a
strict no-op: the loop body executes zero times and the value is returned
unchanged (in particular no self-edge conversion function is ever invoked
when source and target space coincide with no flag change). -/
theorem C4_noop (P : prims) (fuel : Nat) (c : color) (nt : color_type) (ne : Nat)
    (h1 : c.type = nt) (h2 : c.extra = ne) :
    color_convert P fuel c nt ne = some (c, 0) := by
  unfold color_convert
  rw [if_pos ⟨h1, h2⟩]

/-- C4 witness: a YUV value already carrying the requested matrix flags. -/
theorem C4_witness :
    color_convert P0 16 ⟨.YUV, 2, 0.5, 0.1, 0.1⟩ .YUV 2 = some (⟨.YUV, 2, 0.5, 0.1, 0.1⟩, 0) :=
  C4_noop P0 16 ⟨.YUV, 2, 0.5, 0.1, 0.1⟩ .YUV 2 rfl rfl

/-! ### Bounds of the `clamp_u8` store pattern -/

theorem clamp_u8_nonneg (x : ℚ) : 0 ≤ clamp_u8 x := by
  unfold clamp_u8 c_trunc
  split
  · norm_num
  split
  · norm_num
  · rename_i h1 _
    rw [if_pos (not_lt.mp h1)]
    exact_mod_cast Int.floor_nonneg.mpr (not_lt.mp h1)

theorem clamp_u8_le_255 (x : ℚ) : clamp_u8 x ≤ 255 := by
  unfold clamp_u8 c_trunc
  split
  · norm_num
  split
  · norm_num
  · rename_i h1 h2
    rw [if_pos (not_lt.mp h1)]
    have : (⌊x⌋ : ℚ) ≤ x := Int.floor_le x
    linarith [not_lt.mp h2]

theorem clamp_u8_ge (x : ℚ) (a : ℤ) (ha : (a : ℚ) ≤ x) (h0 : 0 ≤ a) (h255 : a ≤ 255) :
    (a : ℚ) ≤ clamp_u8 x := by
  unfold clamp_u8 c_trunc
  have hx0 : ¬x < 0 := not_lt.mpr (le_trans (by exact_mod_cast h0) ha)
  rw [if_neg hx0]
  split
  · exact_mod_cast h255
  · rw [if_pos (not_lt.mp hx0)]
    exact_mod_cast Int.le_floor.mpr ha

theorem clamp_u8_ub (x : ℚ) (b : ℤ) (hb : x < (b : ℚ) + 1) (h0 : 0 ≤ b) (h255 : b ≤ 255) :
    clamp_u8 x ≤ (b : ℚ) := by
  unfold clamp_u8 c_trunc
  split
  · exact_mod_cast h0
  split
  · rename_i h1 h2
    have hq : (254 : ℚ) < (b : ℚ) := by linarith
    have hz : (255 : ℤ) ≤ b := by exact_mod_cast hq
    exact_mod_cast hz
  · rename_i h1 _
    rw [if_pos (not_lt.mp h1)]
    have : ⌊x⌋ < b + 1 := Int.floor_lt.mpr (by exact_mod_cast hb)
    exact_mod_cast Int.lt_add_one_iff.mp this

def cex_YUV_chroma : color := ⟨.YUV, 0, 0, 0.436, 0⟩

/-- C3 counterexample: in studio range the chroma rescale adds the offset
144, so the nominal chroma input U = 0.436 (with Y = 0, V = 0, Rec.601)
yields the code value Cb = 255, which is not in the claimed studio chroma
interval [16, 240]. -/
theorem C3_counterexample :
    (color_YUV_to_YCbCr P0 cex_YUV_chroma 0).map (fun r => r.v1) = some 255 ∧
      ¬((255 : ℚ) ≤ 240) := by
  constructor
  · show (color_YUV_to_YCbCr P0 ⟨.YUV, 0, 0, 0.436, 0⟩ 0).map (fun r => r.v1) = some 255
    norm_num [color_YUV_to_YCbCr, clamp_u8, c_trunc]
  · norm_num

/-- C3 amended: `color_YUV_to_YCbCr` applies an affine rescale selected by
the full-range flag, each result clamped to [0,255] and truncated.  In full
range (luma `Y*255+0.5`, chroma scaled by 31875/109 resp. 8500/41 with
offset 128) all three code values land in [0,255].  In studio range the
luma `Y*219+16.5` lands in [16,235] as claimed, but the chroma offset is
144 (not the standard 128 + rounding bias), so over the nominal input
ranges studio chroma lands in [32,255], not [16,240]. -/
theorem C3_ycbcr_ranges (P : prims) (c : color) (e : Nat)
    (hT : c.type = .YUV)
    (hm : c.extra &&& COLOR_YUV_MAT_MASK = e &&& COLOR_YUV_MAT_MASK)
    (hY0 : 0 ≤ c.v0) (hY1 : c.v0 ≤ 1)
    (hU0 : -0.436 ≤ c.v1) (hU1 : c.v1 ≤ 0.436)
    (hV0 : -0.615 ≤ c.v2) (hV1 : c.v2 ≤ 0.615) :
    ∃ r : color, color_YUV_to_YCbCr P c e = some r ∧ r.type = .YCBCR ∧ r.extra = e ∧
      ((e &&& COLOR_YCBCR_FULL_RANGE = 0 →
         (16 ≤ r.v0 ∧ r.v0 ≤ 235) ∧ (32 ≤ r.v1 ∧ r.v1 ≤ 255) ∧ (32 ≤ r.v2 ∧ r.v2 ≤ 255)) ∧
       (e &&& COLOR_YCBCR_FULL_RANGE ≠ 0 →
         (0 ≤ r.v0 ∧ r.v0 ≤ 255) ∧ (0 ≤ r.v1 ∧ r.v1 ≤ 255) ∧ (0 ≤ r.v2 ∧ r.v2 ≤ 255))) := by
  unfold color_YUV_to_YCbCr
  rw [if_pos hT, if_neg (by rw [hm]; exact fun h => h rfl), Option.some_bind]
  by_cases hf : e &&& COLOR_YCBCR_FULL_RANGE ≠ 0
  · rw [if_pos hf]
    refine ⟨_, rfl, rfl, rfl, fun h => absurd h hf, fun _ => ?_⟩
    exact ⟨⟨clamp_u8_nonneg _, clamp_u8_le_255 _⟩, ⟨clamp_u8_nonneg _, clamp_u8_le_255 _⟩,
           ⟨clamp_u8_nonneg _, clamp_u8_le_255 _⟩⟩
  · rw [if_neg hf]
    refine ⟨_, rfl, rfl, rfl, fun _ => ?_, fun h => absurd h (by simpa using hf)⟩
    have hYl : (16 : ℚ) ≤ c.v0 * 219 + 16.5 := by nlinarith
    have hYu : c.v0 * 219 + 16.5 < (235 : ℚ) + 1 := by nlinarith
    have hUl : (32 : ℚ) ≤ c.v1 * (28000/109) + 144 := by nlinarith
    have hVl : (32 : ℚ) ≤ c.v2 * (22400/123) + 144 := by nlinarith
    refine ⟨⟨?_, ?_⟩, ⟨?_, clamp_u8_le_255 _⟩, ⟨?_, clamp_u8_le_255 _⟩⟩
    · exact_mod_cast clamp_u8_ge _ 16 (by exact_mod_cast hYl) (by norm_num) (by norm_num)
    · exact_mod_cast clamp_u8_ub _ 235 (by exact_mod_cast hYu) (by norm_num) (by norm_num)
    · exact_mod_cast clamp_u8_ge _ 32 (by exact_mod_cast hUl) (by norm_num) (by norm_num)
    · exact_mod_cast clamp_u8_ge _ 32 (by exact_mod_cast hVl) (by norm_num) (by norm_num)

/-- C3 witness: the amended range theorem applied to a concrete studio
request (Y = 1/2, U = 0, V = 0, Rec.601). -/
theorem C3_witness :
    ∃ r : color, color_YUV_to_YCbCr P0 ⟨.YUV, 0, 0.5, 0, 0⟩ 0 = some r ∧
      r.type = .YCBCR ∧ r.extra = 0 ∧
      ((0 &&& COLOR_YCBCR_FULL_RANGE = 0 →
         (16 ≤ r.v0 ∧ r.v0 ≤ 235) ∧ (32 ≤ r.v1 ∧ r.v1 ≤ 255) ∧ (32 ≤ r.v2 ∧ r.v2 ≤ 255)) ∧
       (0 &&& COLOR_YCBCR_FULL_RANGE ≠ 0 →
         (0 ≤ r.v0 ∧ r.v0 ≤ 255) ∧ (0 ≤ r.v1 ∧ r.v1 ≤ 255) ∧ (0 ≤ r.v2 ∧ r.v2 ≤ 255))) :=
  C3_ycbcr_ranges P0 ⟨.YUV, 0, 0.5, 0, 0⟩ 0 rfl rfl (by norm_num) (by norm_num)
    (by norm_num) (by norm_num) (by norm_num) (by norm_num)

/-- C5: the YUV self-edge is exactly YUV→RGB (under the value's current
matrix flags) composed with RGB→YUV (under the target flags); its
flags-changed assertion holds on every invocation reachable through
`color_convert` (every assert is modelled as an `Option` failure, and
routing from every applicable tag pair never fails); and a Rec.601 YUV
value re-parameterized to Rec.709 equals the Rec.709 matrix applied to the
RGB reconstructed from the Rec.601 YUV. -/
theorem C5_yuv_self_edge (P : prims) (c : color) (e : Nat)
    (hT : c.type = .YUV) (hx : c.extra ≠ e) :
    (color_YUV_to_YUV P c e
       = (color_YUV_to_RGB P c e).bind fun c1 => color_RGB_to_YUV P c1 e) ∧
    (∀ s t : color_type, ∀ x < 8, ∀ y < 8,
       applicable s x = true → applicable t y = true → tag_convert 16 s x t y ≠ none) ∧
    (c.extra = 0 → e = 1 →
       color_YUV_to_YUV P c e = some ⟨.YUV, 1,
         (c.v0 + c.v2 * (701/615)) * 0.2126
           + (c.v0 + c.v1 * (-25251/63983) + c.v2 * (-209599/361005)) * 0.7152
           + (c.v0 + c.v1 * (443/218)) * 0.0722,
         (c.v0 + c.v2 * (701/615)) * (-115867/1159750)
           + (c.v0 + c.v1 * (-25251/63983) + c.v2 * (-209599/361005)) * (-194892/579875)
           + (c.v0 + c.v1 * (443/218)) * 0.436,
         (c.v0 + c.v2 * (701/615)) * 0.615
           + (c.v0 + c.v1 * (-25251/63983) + c.v2 * (-209599/361005)) * (-54981/98425)
           + (c.v0 + c.v1 * (443/218)) * (-44403/787400)⟩) := by
  refine ⟨?_, ?_, ?_⟩
  · simp [color_YUV_to_YUV, color_YUV_to_RGB, color_RGB_to_YUV, hT, hx]
  · intro s t x hx8 y hy8 has hat
    obtain ⟨n, _, hc⟩ := tag_ok_spec (tag_total s t x hx8 y hy8 has hat)
    rw [hc]
    exact Option.some_ne_none _
  · intro h0 h1
    subst h1
    simp [color_YUV_to_YUV, color_YUV_to_RGB, color_RGB_to_YUV, hT, hx, h0,
      yuv_to_rgb, rgb_to_yuv, COLOR_YUV_MAT_MASK]

/-- C5 witness: the composition shape at a concrete Rec.601 → Rec.709
re-parameterization. -/
theorem C5_witness :
    color_YUV_to_YUV P0 ⟨.YUV, 0, 0.5, 0.1, 0.2⟩ 1
      = (color_YUV_to_RGB P0 ⟨.YUV, 0, 0.5, 0.1, 0.2⟩ 1).bind fun c1 =>
          color_RGB_to_YUV P0 c1 1 :=
  (C5_yuv_self_edge P0 ⟨.YUV, 0, 0.5, 0.1, 0.2⟩ 1 rfl (by decide)).1

def cex_RGB : color := ⟨.RGB, 0, 0, 0, 0⟩

/-- C6 counterexample: the RGB→YUV edge copies the caller's whole target
flags byte into the YUV value, including the YCbCr full-range bit (value
4), which is not meaningful to YUV — so not every edge zeroes the flag bits
that are meaningless for its destination space. -/
theorem C6_counterexample :
    (color_RGB_to_YUV P0 cex_RGB COLOR_YCBCR_FULL_RANGE).map (fun r => (r.type, r.extra))
      = some (.YUV, 4) ∧ 4 &&& COLOR_YCBCR_FULL_RANGE ≠ 0 := by
  exact ⟨rfl, by decide⟩

/-- The six conversion functions that write the flags byte; every other
entry of the catalogue leaves `extra` untouched. -/
def video_edges : List conv_id :=
  [.cRGB_to_YUV, .cYUV_to_RGB, .cYUV_to_YUV, .cYUV_to_YCbCr,
   .cYCbCr_to_YUV, .cYCbCr_to_YCbCr]

theorem conv_tag_preserves_extra (f : conv_id) (hf : f ∉ video_edges)
    (t : color_type) (x e : Nat) (d : color_type) (y : Nat)
    (h : conv_tag f t x e = some (d, y)) : y = x := by
  cases f <;>
    first
    | exact absurd (by decide) hf
    | (simp only [conv_tag] at h
       split at h
       · simp only [Option.some.injEq, Prod.mk.injEq] at h
         exact h.2.symm
       · exact absurd h (by simp))

/-- C6 amended: not every edge zeroes the flag bits that are meaningless
for its destination space — `color_RGB_to_YUV` stores the caller's whole
target flags byte into the YUV value, including the YCbCr full-range bit
(the counterexample).  What the code does guarantee: `color_YUV_to_RGB`
sets the flags byte to 0; `color_YCbCr_to_YUV` yields the current byte with
the range bit cleared when that cleared byte already carries the target
matrix, and otherwise (matrix re-parameterization) yields the full target
flags byte, range bit included; and every edge other than the six
video-flag edges (RGB→YUV, YUV→RGB, YUV→YUV, YUV→YCbCr, YCbCr→YUV,
YCbCr→YCbCr) leaves the flags byte unchanged. -/
theorem C6_flags_canonicalization (P : prims) (c d : color) (e : Nat)
    (hc : c.type = .YUV) (hd : d.type = .YCBCR) :
    (∃ r, color_YUV_to_RGB P c e = some r ∧ r.extra = 0) ∧
    ((d.extra &&& 251) &&& COLOR_YUV_MAT_MASK = e &&& COLOR_YUV_MAT_MASK →
       ∃ r, color_YCbCr_to_YUV P d e = some r ∧ r.extra = d.extra &&& 251) ∧
    ((d.extra &&& 251) &&& COLOR_YUV_MAT_MASK ≠ e &&& COLOR_YUV_MAT_MASK →
       ∃ r, color_YCbCr_to_YUV P d e = some r ∧ r.extra = e) ∧
    (∀ b : color, ∀ f : conv_id, f ∉ video_edges →
       ∀ r, apply_conv P f b e = some r → r.extra = b.extra) := by
  refine ⟨?_, ?_, ?_, ?_⟩
  · unfold color_YUV_to_RGB
    rw [if_pos hc]
    exact ⟨_, rfl, rfl⟩
  · intro heq
    unfold color_YCbCr_to_YUV
    rw [if_pos hd, if_neg fun hh => hh heq]
    exact ⟨_, rfl, rfl⟩
  · intro hne
    unfold color_YCbCr_to_YUV
    rw [if_pos hd, if_pos hne]
    have hxe : d.extra &&& 251 ≠ e := fun hh => hne (by rw [hh])
    simp [color_YUV_to_YUV, color_YUV_to_RGB, color_RGB_to_YUV, hxe]
  · intro b f hf r hr
    have hb := apply_conv_bridge P f b e
    rw [hr] at hb
    simp only [Option.map_some'] at hb
    exact conv_tag_preserves_extra f hf b.type b.extra e r.type r.extra hb.symm

/-- C6 witness: the flag guarantees at a concrete Rec.709 YUV value and a
concrete full-range YCbCr value whose cleared byte already carries the
target matrix. -/
theorem C6_witness :
    (∃ r, color_YUV_to_RGB P0 ⟨.YUV, 1, 0.5, 0.1, 0.1⟩ 0 = some r ∧ r.extra = 0) ∧
    (((4 : Nat) &&& 251) &&& COLOR_YUV_MAT_MASK = 0 &&& COLOR_YUV_MAT_MASK →
       ∃ r, color_YCbCr_to_YUV P0 ⟨.YCBCR, 4, 16, 128, 128⟩ 0 = some r ∧
         r.extra = 4 &&& 251) ∧
    (((4 : Nat) &&& 251) &&& COLOR_YUV_MAT_MASK ≠ 0 &&& COLOR_YUV_MAT_MASK →
       ∃ r, color_YCbCr_to_YUV P0 ⟨.YCBCR, 4, 16, 128, 128⟩ 0 = some r ∧ r.extra = 0) ∧
    (∀ b : color, ∀ f : conv_id, f ∉ video_edges →
       ∀ r, apply_conv P0 f b 0 = some r → r.extra = b.extra) :=
  C6_flags_canonicalization P0 ⟨.YUV, 1, 0.5, 0.1, 0.1⟩ ⟨.YCBCR, 4, 16, 128, 128⟩ 0 rfl rfl

/-- C7: an achromatic RGB value (R = G = B = x) maps to HSL with H = 0,
S = 0, L = x and to HSV with H = 0, S = 0, V = x. -/
theorem C7_achromatic (P : prims) (c : color) (e : Nat) (x : ℚ)
    (hT : c.type = .RGB) (h0 : c.v0 = x) (h1 : c.v1 = x) (h2 : c.v2 = x) :
    color_RGB_to_HSL P c e
      = some { type := .HSL, extra := c.extra, v0 := 0, v1 := 0, v2 := x } ∧
    color_RGB_to_HSV P c e
      = some { type := .HSV, extra := c.extra, v0 := 0, v1 := 0, v2 := x } := by
  constructor
  · unfold color_RGB_to_HSL
    rw [if_pos hT]
    simp only [h0, h1, h2, lt_irrefl, if_false, gt_iff_lt, sub_self, abs_zero,
      lt_self_iff_false, if_neg]
    have : (x + x) * (0.5 : ℚ) = x := by ring
    simp [this]
  · unfold color_RGB_to_HSV
    rw [if_pos hT]
    simp only [h0, h1, h2, lt_irrefl, if_false, gt_iff_lt, sub_self, abs_zero,
      lt_self_iff_false, if_neg]
    try simp

/-- C7 witness: RGB (0.5, 0.5, 0.5) converts to exactly H = 0, S = 0,
L = 0.5 (and V = 0.5). -/
theorem C7_witness :
    color_RGB_to_HSL P0 ⟨.RGB, 0, 0.5, 0.5, 0.5⟩ 0
      = some { type := .HSL, extra := 0, v0 := 0, v1 := 0, v2 := 0.5 } ∧
    color_RGB_to_HSV P0 ⟨.RGB, 0, 0.5, 0.5, 0.5⟩ 0
      = some { type := .HSV, extra := 0, v0 := 0, v1 := 0, v2 := 0.5 } :=
  C7_achromatic P0 ⟨.RGB, 0, 0.5, 0.5, 0.5⟩ 0 0.5 rfl rfl rfl rfl

/-- C8: the RGB→LinearRGB edge computes the sRGB inverse transfer function
`((c+0.055)/1.055)^2.4` above the breakpoint `0.0031308*12.92` and
`c/12.92` below it, and LinearRGB→RGB computes `c^(1/2.4)*1.055 - 0.055`
above `0.0031308` and `c*12.92` below, with exactly the coefficients
1.055 / 0.055 / 12.92 and exponent 2.4 (for any interpretation of `pow`). -/
theorem C8_srgb_transfer (P : prims) (c : ℚ) :
    rgb_to_linear P c
      = (if c > 0.0031308 * 12.92 then P.pw ((c + 0.055) / 1.055) 2.4 else c / 12.92) ∧
    linear_to_rgb P c
      = (if c > 0.0031308 then P.pw c (1/2.4) * 1.055 - 0.055 else c * 12.92) := by
  constructor
  · unfold rgb_to_linear
    split
    · congr 1
      ring
    · ring
  · rfl

/-- C9: when X + Y + Z = 0 the XYZ→xyY edge performs no division and passes
X and Y through as the degenerate x and y (with the Y payload set to the
input Y); the division happens exactly when the sum is nonzero. -/
theorem C9_xyY_zero_sum (P : prims) (c : color) (e : Nat) (hT : c.type = .XYZ) :
    (c.v0 + c.v1 + c.v2 = 0 →
       color_XYZ_to_xyY P c e
         = some { type := .XYY, extra := c.extra, v0 := c.v0, v1 := c.v1, v2 := c.v1 }) ∧
    (c.v0 + c.v1 + c.v2 ≠ 0 →
       color_XYZ_to_xyY P c e
         = some { type := .XYY, extra := c.extra,
                  v0 := c.v0 / (c.v0 + c.v1 + c.v2),
                  v1 := c.v1 / (c.v0 + c.v1 + c.v2), v2 := c.v1 }) := by
  unfold color_XYZ_to_xyY
  rw [if_pos hT]
  constructor
  · intro h
    rw [if_neg (by simp [h])]
  · intro h
    rw [if_pos (by simpa using abs_pos.mpr h)]

/-- C9 witness: XYZ (1, 2, −3) has zero component sum and yields the
degenerate pass-through xyY (1, 2, 2). -/
theorem C9_witness :
    ((1 : ℚ) + 2 + -3 = 0 →
       color_XYZ_to_xyY P0 ⟨.XYZ, 0, 1, 2, -3⟩ 0
         = some { type := .XYY, extra := 0, v0 := 1, v1 := 2, v2 := 2 }) ∧
    ((1 : ℚ) + 2 + -3 ≠ 0 →
       color_XYZ_to_xyY P0 ⟨.XYZ, 0, 1, 2, -3⟩ 0
         = some { type := .XYY, extra := 0,
                  v0 := 1 / ((1 : ℚ) + 2 + -3), v1 := 2 / ((1 : ℚ) + 2 + -3), v2 := 2 }) :=
  C9_xyY_zero_sum P0 ⟨.XYZ, 0, 1, 2, -3⟩ 0 rfl

/-! ### C10: the LinearRGB→Lab shortcut folds the D65 white point into the
LinearRGB→XYZ matrix; we check the folded coefficients, thresholds and
linear-segment slopes agree exactly with the two-hop composition. -/

theorem fold_arg_X (R G B : ℚ) :
    R * (10135552/23359437) + G * (8788810/23359437) + B * (4435075/23359437)
      = (R * (5067776/12288897) + G * (4394405/12288897) + B * (4435075/24577794))
        * COLOR_REF_Xr := by
  unfold COLOR_REF_Xr
  ring

theorem fold_arg_Z (R G B : ℚ) :
    R * (158368/8920923) + G * (8788810/80288307) + B * (70074185/80288307)
      = (R * (79184/4096299) + G * (4394405/36866691) + B * (70074185/73733382))
        * COLOR_REF_Zr := by
  unfold COLOR_REF_Zr
  ring

theorem fold_cond_X (X : ℚ) :
    (X * COLOR_REF_Xr > 216/24389) ↔ (X > 3377268/401223439) := by
  unfold COLOR_REF_Xr
  rw [gt_iff_lt, gt_iff_lt,
    show (216/24389 : ℚ) = 3377268/401223439 * (32902/31271) by norm_num]
  exact mul_lt_mul_right (by norm_num)

theorem fold_cond_Z (X : ℚ) :
    (X * COLOR_REF_Zr > 216/24389) ↔ (X > 3869316/401223439) := by
  unfold COLOR_REF_Zr
  rw [gt_iff_lt, gt_iff_lt,
    show (216/24389 : ℚ) = 3869316/401223439 * (32902/35827) by norm_num]
  exact mul_lt_mul_right (by norm_num)

theorem xyz_to_lab_fold_X (P : prims) (X : ℚ) :
    xyz_to_lab P (X * COLOR_REF_Xr)
      = (if X > 3377268/401223439 then P.pw (X * COLOR_REF_Xr) (1/3)
         else X * (13835291/1688634) + 4/29) := by
  unfold xyz_to_lab
  by_cases h : X > 3377268/401223439
  · rw [if_pos ((fold_cond_X X).mpr h), if_pos h]
  · rw [if_neg fun hh => h ((fold_cond_X X).mp hh), if_neg h]
    unfold COLOR_REF_Xr
    ring

theorem xyz_to_lab_fold_Z (P : prims) (X : ℚ) :
    xyz_to_lab P (X * COLOR_REF_Zr)
      = (if X > 3869316/401223439 then P.pw (X * COLOR_REF_Zr) (1/3)
         else X * (13835291/1934658) + 4/29) := by
  unfold xyz_to_lab
  by_cases h : X > 3869316/401223439
  · rw [if_pos ((fold_cond_Z X).mpr h), if_pos h]
  · rw [if_neg fun hh => h ((fold_cond_Z X).mp hh), if_neg h]
    unfold COLOR_REF_Zr
    ring

/-- C10: the specialized direct LinearRGB→Lab shortcut edge produces
exactly the same L, a, b as the composition of LinearRGB→XYZ followed by
XYZ→Lab — both piecewise branches, the folded-in D65 white-point
normalization, and the matrix coefficients agree — for every value and
every interpretation of `pow`. -/
theorem C10_lab_shortcut (P : prims) (c : color) (e : Nat) :
    color_LinearRGB_to_Lab P c e
      = (color_LinearRGB_to_XYZ P c e).bind fun c1 => color_XYZ_to_Lab P c1 e := by
  by_cases hT : c.type = .LINEAR_RGB
  · unfold color_LinearRGB_to_Lab color_LinearRGB_to_XYZ color_XYZ_to_Lab
    rw [if_pos hT, if_pos hT, Option.some_bind, if_pos rfl]
    simp only []
    rw [fold_arg_X c.v0 c.v1 c.v2, fold_arg_Z c.v0 c.v1 c.v2,
      xyz_to_lab_fold_X, xyz_to_lab_fold_Z]
    rfl
  · unfold color_LinearRGB_to_Lab color_LinearRGB_to_XYZ
    rw [if_neg hT, if_neg hT]
    rfl

end Colors
